import Mathlib

/-!
Shallow embedding of the base-layer interfaces of the RPC framework
(src/src/python/grpcio/grpc/framework/base/interfaces.py): the Outcome and
ticket-kind enumerations, the FrontToBackTicket and BackToFrontTicket record
types, and the documented per-ticket and per-sequence invariants.  Behaviour
whose implementation is not part of the source tree (the sequencing engine,
deadline handling, the Back dispatch path, operation timing) is modelled from
the documented contracts, as noted on each definition.
-/

namespace GrpcBase

/-- Operation outcomes, from the Outcome enumeration of interfaces.py. -/
inductive Outcome
  | COMPLETED
  | CANCELLED
  | EXPIRED
  | RECEPTION_FAILURE
  | TRANSMISSION_FAILURE
  | SERVICER_FAILURE
  | SERVICED_FAILURE
  deriving DecidableEq, Repr, Fintype

/-- Kinds of serviced subscription, from ServicedSubscription.Kind. -/
inductive SubscriptionKind
  | FULL
  | TERMINATION_ONLY
  | NONE
  deriving DecidableEq, Repr, Fintype

/-- Kinds of front-to-back ticket, from FrontToBackTicket.Kind. -/
inductive FrontToBackTicket.Kind
  | COMMENCEMENT
  | CONTINUATION
  | COMPLETION
  | ENTIRE
  | CANCELLATION
  | EXPIRATION
  | SERVICER_FAILURE
  | SERVICED_FAILURE
  | RECEPTION_FAILURE
  | TRANSMISSION_FAILURE
  deriving DecidableEq, Repr, Fintype

/-- Kinds of back-to-front ticket, from BackToFrontTicket.Kind. -/
inductive BackToFrontTicket.Kind
  | CONTINUATION
  | COMPLETION
  | CANCELLATION
  | EXPIRATION
  | SERVICER_FAILURE
  | SERVICED_FAILURE
  | RECEPTION_FAILURE
  | TRANSMISSION_FAILURE
  deriving DecidableEq, Repr, Fintype

/-- FrontToBackTicket: the namedtuple with fields operation_id, sequence_number,
kind, name, subscription, trace_id, payload, timeout.  Operation identifiers,
method names, trace identifiers, payloads and timeouts are opaque at this
layer and are embedded as natural numbers; optional fields are Option-valued,
with none embedding the Python None. -/
structure FrontToBackTicket where
  operation_id : Nat
  sequence_number : Nat
  kind : FrontToBackTicket.Kind
  name : Option Nat
  subscription : Option SubscriptionKind
  trace_id : Option Nat
  payload : Option Nat
  timeout : Option Nat
  deriving DecidableEq, Repr

/-- BackToFrontTicket: the namedtuple with fields operation_id,
sequence_number, kind, payload. -/
structure BackToFrontTicket where
  operation_id : Nat
  sequence_number : Nat
  kind : BackToFrontTicket.Kind
  payload : Option Nat
  deriving DecidableEq, Repr

/-- The per-ticket well-formedness invariant of FrontToBackTicket, read off the
attribute documentation: sequence_number must be zero if kind is COMMENCEMENT
or ENTIRE and positive for any other kind; name and subscription must be
present if kind is COMMENCEMENT or ENTIRE and None for any other kind; payload
must be present if kind is CONTINUATION, None if kind is CANCELLATION, and may
be None for any other kind; trace_id may always be None. -/
def FrontToBackTicket.wf (t : FrontToBackTicket) : Prop :=
  ((t.kind = .COMMENCEMENT ∨ t.kind = .ENTIRE) → t.sequence_number = 0) ∧
  (¬(t.kind = .COMMENCEMENT ∨ t.kind = .ENTIRE) → 0 < t.sequence_number) ∧
  ((t.kind = .COMMENCEMENT ∨ t.kind = .ENTIRE) →
      t.name.isSome ∧ t.subscription.isSome) ∧
  (¬(t.kind = .COMMENCEMENT ∨ t.kind = .ENTIRE) →
      t.name = none ∧ t.subscription = none) ∧
  (t.kind = .CONTINUATION → t.payload.isSome) ∧
  (t.kind = .CANCELLATION → t.payload = none)

instance (t : FrontToBackTicket) : Decidable t.wf := by
  unfold FrontToBackTicket.wf
  exact inferInstance

/-- The per-ticket well-formedness invariant of BackToFrontTicket, read off the
attribute documentation: payload must be present if kind is CONTINUATION, may
be None if kind is COMPLETION, and must be None otherwise. -/
def BackToFrontTicket.wf (t : BackToFrontTicket) : Prop :=
  (t.kind = .CONTINUATION → t.payload.isSome) ∧
  (t.kind ≠ .CONTINUATION → t.kind ≠ .COMPLETION → t.payload = none)

instance (t : BackToFrontTicket) : Decidable t.wf := by
  unfold BackToFrontTicket.wf
  exact inferInstance

/-- A well-formed per-operation front-to-back sequence: the documentation
describes sequence_number as a zero-indexed integer identifying the ticket
place among all the tickets sent from front to back for the operation, so the
ticket at position i carries sequence_number i, and every ticket satisfies the
per-ticket invariant. -/
def F2BSequenceWf (ts : List FrontToBackTicket) : Prop :=
  (∀ i : Fin ts.length, (ts.get i).sequence_number = i.val) ∧
  (∀ t ∈ ts, t.wf)

instance (ts : List FrontToBackTicket) : Decidable (F2BSequenceWf ts) := by
  unfold F2BSequenceWf
  exact inferInstance

/-- A well-formed per-operation back-to-front sequence: sequence_number is a
zero-indexed integer identifying the ticket place among all the tickets sent
from back to front for the operation, and every ticket satisfies the
per-ticket invariant. -/
def B2FSequenceWf (ts : List BackToFrontTicket) : Prop :=
  (∀ i : Fin ts.length, (ts.get i).sequence_number = i.val) ∧
  (∀ t ∈ ts, t.wf)

instance (ts : List BackToFrontTicket) : Decidable (B2FSequenceWf ts) := by
  unfold B2FSequenceWf
  exact inferInstance

/-- The evident injection of back-to-front ticket kinds into front-to-back
ticket kinds: each of the eight back-to-front kinds also names a front-to-back
kind. -/
def f2bKindOfB2f : BackToFrontTicket.Kind → FrontToBackTicket.Kind
  | .CONTINUATION => .CONTINUATION
  | .COMPLETION => .COMPLETION
  | .CANCELLATION => .CANCELLATION
  | .EXPIRATION => .EXPIRATION
  | .SERVICER_FAILURE => .SERVICER_FAILURE
  | .SERVICED_FAILURE => .SERVICED_FAILURE
  | .RECEPTION_FAILURE => .RECEPTION_FAILURE
  | .TRANSMISSION_FAILURE => .TRANSMISSION_FAILURE

/-- A well-formed front-to-back ticket of a given kind with a given payload:
starter kinds carry sequence_number 0 together with a name and a subscription,
every other kind carries sequence_number 1 and no name or subscription. -/
def mkTicketOfKind (k : FrontToBackTicket.Kind) (p : Option Nat) :
    FrontToBackTicket :=
  if k = .COMMENCEMENT ∨ k = .ENTIRE then
    ⟨0, 0, k, some 0, some .FULL, none, p, none⟩
  else
    ⟨0, 1, k, none, none, none, p, none⟩

/-- An example well-formed front-to-back sequence used to witness the
sequencing theorem. -/
def exampleF2BSeq : List FrontToBackTicket :=
  [⟨7, 0, .COMMENCEMENT, some 1, some .FULL, none, none, some 30⟩,
   ⟨7, 1, .CONTINUATION, none, none, none, some 2, none⟩,
   ⟨7, 2, .COMPLETION, none, none, none, none, none⟩]

/-- An example well-formed front-to-back ticket used to witness the
field-presence theorem. -/
def exampleCommencement : FrontToBackTicket :=
  ⟨7, 0, .COMMENCEMENT, some 1, some .FULL, some 9, none, some 30⟩

/-- C4: the Outcome type is a closed set of exactly seven pairwise-distinct
values: COMPLETED, CANCELLED, EXPIRED, RECEPTION_FAILURE,
TRANSMISSION_FAILURE, SERVICER_FAILURE, SERVICED_FAILURE; every terminal
classification is one of these and no other. -/
theorem outcome_closed_seven :
    (∀ o : Outcome,
      o ∈ [Outcome.COMPLETED, Outcome.CANCELLED, Outcome.EXPIRED,
           Outcome.RECEPTION_FAILURE, Outcome.TRANSMISSION_FAILURE,
           Outcome.SERVICER_FAILURE, Outcome.SERVICED_FAILURE]) ∧
    List.Nodup
      [Outcome.COMPLETED, Outcome.CANCELLED, Outcome.EXPIRED,
       Outcome.RECEPTION_FAILURE, Outcome.TRANSMISSION_FAILURE,
       Outcome.SERVICER_FAILURE, Outcome.SERVICED_FAILURE] := by
  constructor
  · intro o
    cases o <;> decide
  · decide

/-- C8: the set of BackToFrontTicket kinds is exactly the set of
FrontToBackTicket kinds with COMMENCEMENT and ENTIRE removed: the evident
kind-preserving map is injective, never hits COMMENCEMENT or ENTIRE, and hits
every other front-to-back kind; in particular EXPIRATION, SERVICER_FAILURE,
SERVICED_FAILURE, RECEPTION_FAILURE and TRANSMISSION_FAILURE occur in the
front-to-back direction as well. -/
theorem b2f_kinds_eq_f2b_kinds_minus_starters :
    Function.Injective f2bKindOfB2f ∧
    (∀ j : FrontToBackTicket.Kind,
      (∃ k : BackToFrontTicket.Kind, f2bKindOfB2f k = j) ↔
        (j ≠ .COMMENCEMENT ∧ j ≠ .ENTIRE)) ∧
    f2bKindOfB2f .EXPIRATION = .EXPIRATION ∧
    f2bKindOfB2f .SERVICER_FAILURE = .SERVICER_FAILURE ∧
    f2bKindOfB2f .SERVICED_FAILURE = .SERVICED_FAILURE ∧
    f2bKindOfB2f .RECEPTION_FAILURE = .RECEPTION_FAILURE ∧
    f2bKindOfB2f .TRANSMISSION_FAILURE = .TRANSMISSION_FAILURE := by
  refine ⟨?_, ?_, rfl, rfl, rfl, rfl, rfl⟩
  · intro a b
    cases a <;> cases b <;> decide
  · decide

/-- C1: in a well-formed per-operation front-to-back sequence, every ticket
has sequence_number 0 exactly when its kind is COMMENCEMENT or ENTIRE, every
other kind carries a strictly positive sequence_number, and each subsequent
ticket carries a sequence_number exactly 1 greater than its predecessor, with
no gaps. -/
theorem f2b_sequence_discipline (ts : List FrontToBackTicket)
    (h : F2BSequenceWf ts) :
    (∀ t ∈ ts,
      (t.sequence_number = 0 ↔ (t.kind = .COMMENCEMENT ∨ t.kind = .ENTIRE)) ∧
      ((t.kind ≠ .COMMENCEMENT ∧ t.kind ≠ .ENTIRE) → 0 < t.sequence_number)) ∧
    (∀ i : Nat, ∀ hi : i + 1 < ts.length,
      (ts.get ⟨i + 1, hi⟩).sequence_number =
        (ts.get ⟨i, Nat.lt_of_succ_lt hi⟩).sequence_number + 1) := by
  obtain ⟨hseq, hwf⟩ := h
  constructor
  · intro t ht
    obtain ⟨h1, h2, -, -, -, -⟩ := hwf t ht
    constructor
    · constructor
      · intro hz
        by_contra hns
        exact absurd hz (Nat.pos_iff_ne_zero.mp (h2 hns))
      · exact h1
    · intro hk
      exact h2 (by
        rintro (h | h)
        · exact hk.1 h
        · exact hk.2 h)
  · intro i hi
    rw [hseq ⟨i + 1, hi⟩, hseq ⟨i, Nat.lt_of_succ_lt hi⟩]

/-- Witness for C1 at a concrete three-ticket sequence. -/
theorem f2b_sequence_discipline_witness :
    F2BSequenceWf exampleF2BSeq ∧
    (∀ t ∈ exampleF2BSeq,
      (t.sequence_number = 0 ↔
        (t.kind = .COMMENCEMENT ∨ t.kind = .ENTIRE))) := by
  refine ⟨by decide, fun t ht => ?_⟩
  exact ((f2b_sequence_discipline exampleF2BSeq (by decide)).1 t ht).1

/-- C2: for every well-formed front-to-back ticket, name and subscription are
present exactly when kind is COMMENCEMENT or ENTIRE and absent (None)
otherwise; payload is present when kind is CONTINUATION, is None when kind is
CANCELLATION, and for every other kind both a present and an absent payload
are well-formed. -/
theorem f2b_field_presence (t : FrontToBackTicket) (h : t.wf) :
    ((t.name.isSome ∧ t.subscription.isSome) ↔
      (t.kind = .COMMENCEMENT ∨ t.kind = .ENTIRE)) ∧
    (¬(t.kind = .COMMENCEMENT ∨ t.kind = .ENTIRE) →
      t.name = none ∧ t.subscription = none) ∧
    (t.kind = .CONTINUATION → t.payload.isSome) ∧
    (t.kind = .CANCELLATION → t.payload = none) ∧
    (∀ k : FrontToBackTicket.Kind, k ≠ .CONTINUATION → k ≠ .CANCELLATION →
      ∃ t1 t2 : FrontToBackTicket,
        t1.wf ∧ t1.kind = k ∧ t1.payload = none ∧
        t2.wf ∧ t2.kind = k ∧ t2.payload.isSome) := by
  obtain ⟨-, -, h3, h4, h5, h6⟩ := h
  refine ⟨⟨?_, h3⟩, h4, h5, h6, ?_⟩
  · intro hp
    by_contra hns
    obtain ⟨hn, hs⟩ := h4 hns
    rw [hn] at hp
    exact absurd hp.1 (by decide)
  · intro k hk1 hk2
    refine ⟨mkTicketOfKind k none, mkTicketOfKind k (some 5), ?_⟩
    cases k
    case CONTINUATION => exact absurd rfl hk1
    case CANCELLATION => exact absurd rfl hk2
    all_goals decide

/-- Witness for C2 at a concrete well-formed COMMENCEMENT ticket. -/
theorem f2b_field_presence_witness :
    FrontToBackTicket.wf exampleCommencement ∧
    (exampleCommencement.name.isSome ∧
      exampleCommencement.subscription.isSome) := by
  refine ⟨by decide, ?_⟩
  exact (f2b_field_presence exampleCommencement (by decide)).1.mpr
    (Or.inl rfl)

/-- C10: trace_id is unconstrained by the per-ticket invariant: replacing the
trace_id of any well-formed ticket by any value, None included, preserves
well-formedness, and for every kind, COMMENCEMENT and ENTIRE included, there
is a well-formed ticket of that kind whose trace_id is None. -/
theorem f2b_trace_id_optional (t : FrontToBackTicket) (h : t.wf)
    (tid : Option Nat) :
    FrontToBackTicket.wf
      ⟨t.operation_id, t.sequence_number, t.kind, t.name, t.subscription,
       tid, t.payload, t.timeout⟩ ∧
    (∀ k : FrontToBackTicket.Kind,
      ∃ t1 : FrontToBackTicket, t1.wf ∧ t1.kind = k ∧ t1.trace_id = none) := by
  constructor
  · exact h
  · intro k
    refine ⟨mkTicketOfKind k (if k = .CONTINUATION then some 5 else none), ?_⟩
    cases k <;> decide

/-- Witness for C10 at a concrete well-formed COMMENCEMENT ticket. -/
theorem f2b_trace_id_optional_witness :
    FrontToBackTicket.wf
      ⟨7, 0, .COMMENCEMENT, some 1, some .FULL, none, none, some 30⟩ := by
  have h := f2b_trace_id_optional exampleCommencement (by decide) none
  exact h.1

/-- An example well-formed back-to-front sequence used to witness the amended
back-to-front structure theorem. -/
def exampleB2FSeq : List BackToFrontTicket :=
  [⟨3, 0, .CONTINUATION, some 5⟩, ⟨3, 1, .COMPLETION, none⟩]

/-- C3 counterexample: a well-formed one-ticket back-to-front sequence whose
first ticket carries sequence_number 0 although its kind, CONTINUATION, is
neither COMMENCEMENT nor ENTIRE; indeed no back-to-front kind maps to
COMMENCEMENT or ENTIRE, so the claimed rule that sequence_number is 0 iff the
kind is COMMENCEMENT or ENTIRE fails in the back-to-front direction. -/
theorem b2f_seq_zero_counterexample :
    B2FSequenceWf [⟨3, 0, .CONTINUATION, some 5⟩] ∧
    (BackToFrontTicket.mk 3 0 .CONTINUATION (some 5)).sequence_number = 0 ∧
    f2bKindOfB2f (BackToFrontTicket.mk 3 0 .CONTINUATION (some 5)).kind ≠
      .COMMENCEMENT ∧
    f2bKindOfB2f (BackToFrontTicket.mk 3 0 .CONTINUATION (some 5)).kind ≠
      .ENTIRE ∧
    (∀ k : BackToFrontTicket.Kind,
      f2bKindOfB2f k ≠ .COMMENCEMENT ∧ f2bKindOfB2f k ≠ .ENTIRE) := by
  refine ⟨by decide, rfl, by decide, by decide, ?_⟩
  intro k
  cases k <;> exact ⟨by decide, by decide⟩

/-- C3 amended: every BackToFrontTicket consists of exactly the fields
operation_id, sequence_number, kind and payload; its kind ranges over exactly
the eight listed values; payload is required for CONTINUATION, optional for
COMPLETION and forbidden otherwise; and in a well-formed back-to-front
sequence the first ticket carries sequence_number 0 and each subsequent one
exactly 1 more than its predecessor, with no kind-based zero condition. -/
theorem b2f_structure (t : BackToFrontTicket) (ht : t.wf)
    (ts : List BackToFrontTicket) (hts : B2FSequenceWf ts) :
    (t = ⟨t.operation_id, t.sequence_number, t.kind, t.payload⟩) ∧
    (∀ k : BackToFrontTicket.Kind,
      k ∈ [BackToFrontTicket.Kind.CONTINUATION, .COMPLETION, .CANCELLATION,
           .EXPIRATION, .SERVICER_FAILURE, .SERVICED_FAILURE,
           .RECEPTION_FAILURE, .TRANSMISSION_FAILURE]) ∧
    (t.kind = .CONTINUATION → t.payload.isSome) ∧
    (t.kind ≠ .CONTINUATION → t.kind ≠ .COMPLETION → t.payload = none) ∧
    (∃ t1 : BackToFrontTicket, t1.wf ∧ t1.kind = .COMPLETION ∧
      t1.payload = none) ∧
    (∃ t2 : BackToFrontTicket, t2.wf ∧ t2.kind = .COMPLETION ∧
      t2.payload.isSome) ∧
    (∀ hn : 0 < ts.length, (ts.get ⟨0, hn⟩).sequence_number = 0) ∧
    (∀ i : Nat, ∀ hi : i + 1 < ts.length,
      (ts.get ⟨i + 1, hi⟩).sequence_number =
        (ts.get ⟨i, Nat.lt_of_succ_lt hi⟩).sequence_number + 1) := by
  obtain ⟨hseq, -⟩ := hts
  obtain ⟨h1, h2⟩ := ht
  refine ⟨rfl, ?_, h1, h2, ⟨⟨0, 0, .COMPLETION, none⟩, by decide⟩,
    ⟨⟨0, 0, .COMPLETION, some 7⟩, by decide⟩, ?_, ?_⟩
  · intro k
    cases k <;> decide
  · intro hn
    exact hseq ⟨0, hn⟩
  · intro i hi
    rw [hseq ⟨i + 1, hi⟩, hseq ⟨i, Nat.lt_of_succ_lt hi⟩]

/-- Witness for the amended C3 at a concrete ticket and two-ticket sequence. -/
theorem b2f_structure_witness :
    BackToFrontTicket.wf ⟨3, 0, .CONTINUATION, some 5⟩ ∧
    B2FSequenceWf exampleB2FSeq ∧
    (exampleB2FSeq.get ⟨0, by decide⟩).sequence_number = 0 := by
  refine ⟨by decide, by decide, ?_⟩
  exact (b2f_structure ⟨3, 0, .CONTINUATION, some 5⟩ (by decide)
    exampleB2FSeq (by decide)).2.2.2.2.2.2.1 (by decide)

/-- One ticket arrival as far as deadlines are concerned: its arrival time and
the timeout it carries, if any. -/
structure TimeoutEvent where
  arrival_time : Nat
  timeout : Option Nat
  deriving DecidableEq, Repr

/-- The timeout request in force after a sequence of ticket arrivals: the
documentation of FrontToBackTicket.timeout lets any ticket carry a timeout,
a value on a later ticket replacing the earlier request, so the last carried
timeout is the one in force; none means no ticket ever carried one. -/
def lastTimeout (evs : List TimeoutEvent) : Option Nat :=
  (evs.filterMap TimeoutEvent.timeout).getLast?

/-- Modelled from the spec: the deadline-handling implementation is not under
src/.  Following the documentation of FrontToBackTicket.timeout, the timeout
is a length of time measured from the beginning of the operation; if no
ticket carries one, a default value on the back is used; if the request is
excessively large the back may limit the operation to a smaller duration of
its choice, here its bound backMax. -/
def operationDeadline (start backDefault backMax : Nat)
    (evs : List TimeoutEvent) : Nat :=
  match lastTimeout evs with
  | none => start + backDefault
  | some t => start + min t backMax

/-- The deadline as the claim words it: recomputed as ticket arrival time plus
timeout on each timeout-carrying ticket, the default applying when no ticket
ever carries one. -/
def claimDeadline (start backDefault : Nat) (evs : List TimeoutEvent) : Nat :=
  match (evs.filter (fun e => e.timeout.isSome)).getLast? with
  | none => start + backDefault
  | some e => e.arrival_time + e.timeout.getD 0

/-- C5 counterexample: for an operation starting at time 0 whose only ticket
arrives at time 5 carrying timeout 10, the documented semantics (timeout
measured from the beginning of the operation) yields deadline 10, while the
claimed recomputation as arrival time plus timeout yields 15. -/
theorem deadline_not_arrival_based :
    operationDeadline 0 100 1000 [⟨5, some 10⟩] = 10 ∧
    claimDeadline 0 100 [⟨5, some 10⟩] = 15 ∧
    operationDeadline 0 100 1000 [⟨5, some 10⟩] ≠
      claimDeadline 0 100 [⟨5, some 10⟩] := by
  refine ⟨by decide, by decide, by decide⟩

theorem lastTimeout_concat (evs : List TimeoutEvent) (a : Nat)
    (o : Option Nat) :
    lastTimeout (evs ++ [⟨a, o⟩]) =
      match o with
      | some t => some t
      | none => lastTimeout evs := by
  unfold lastTimeout
  rw [List.filterMap_append]
  cases o
  · simp [List.filterMap]
  · simp [List.filterMap]

/-- C5 amended: a timeout carried by the latest ticket determines the
operation deadline as operation start time plus the (possibly clamped)
timeout, overriding any earlier request, extension or reduction alike; a
ticket without a timeout leaves the deadline unchanged; when no ticket ever
carries one, the back default applies; and the back bounds any request by its
own maximum. -/
theorem deadline_from_operation_start (start backDefault backMax a t : Nat)
    (evs : List TimeoutEvent) :
    operationDeadline start backDefault backMax (evs ++ [⟨a, some t⟩]) =
      start + min t backMax ∧
    (lastTimeout evs = none →
      operationDeadline start backDefault backMax evs = start + backDefault) ∧
    operationDeadline start backDefault backMax (evs ++ [⟨a, none⟩]) =
      operationDeadline start backDefault backMax evs ∧
    operationDeadline start backDefault backMax (evs ++ [⟨a, some t⟩]) ≤
      start + backMax := by
  have h1 : lastTimeout (evs ++ [⟨a, some t⟩]) = some t :=
    lastTimeout_concat evs a (some t)
  have h2 : lastTimeout (evs ++ [⟨a, none⟩]) = lastTimeout evs :=
    lastTimeout_concat evs a none
  refine ⟨?_, ?_, ?_, ?_⟩
  · unfold operationDeadline
    rw [h1]
  · intro hn
    unfold operationDeadline
    rw [hn]
  · unfold operationDeadline
    rw [h2]
  · unfold operationDeadline
    rw [h1]
    exact Nat.add_le_add_left (Nat.min_le_right t backMax) start

/-- Witness for the amended C5 at concrete times and timeouts. -/
theorem deadline_from_operation_start_witness :
    operationDeadline 2 100 1000 ([] ++ [⟨5, some 10⟩]) = 2 + min 10 1000 ∧
    operationDeadline 2 100 1000 [] = 2 + 100 :=
  ⟨(deadline_from_operation_start 2 100 1000 5 10 []).1,
   (deadline_from_operation_start 2 100 1000 5 10 []).2.1 rfl⟩

/-- Signals raised by Servicer.service, from its docstring: NoSuchMethodError
when the servicer affords no method with the given name, Abandoned when the
operation has been aborted and there no longer is any reason to service it. -/
inductive ServiceSignal
  | noSuchMethod
  | abandoned
  deriving DecidableEq, Repr

/-- Modelled from the spec: the concrete Servicer implementations and the
exceptions module are not under src/.  Following the Servicer.service
docstring, servicing yields an input consumer on success, signals abandoned
when the operation has already been abandoned, and signals noSuchMethod when
the servicer affords no method with the given name. -/
def service (methods : List Nat) (abandonedOp : Bool) (nm : Nat) :
    Except ServiceSignal Nat :=
  if abandonedOp then .error .abandoned
  else if nm ∈ methods then .ok nm
  else .error .noSuchMethod

/-- Termination reports a Back can make about an inbound operation; the
invocation-error report for an unknown method is a distinguished constructor,
separate from every Outcome value and in particular from SERVICER_FAILURE. -/
inductive TerminationReport
  | invocationError
  | abandonedOperation
  | outcome (o : Outcome)
  deriving DecidableEq, Repr

/-- Outcome of one Back dispatch step: the termination report made, if any,
and whether the servicer callback fired. -/
structure BackStep where
  report : Option TerminationReport
  servicerCallbackFired : Bool
  deriving DecidableEq, Repr

/-- Modelled from the spec: the Back implementation is not under src/.  Back
services an inbound commencement by invoking service; when it signals
noSuchMethod the operation terminates with the distinguished invocation-error
report and no servicer callback fires; when it signals abandoned the
operation terminates as abandoned, again without a callback; on success the
servicer callback fires and no termination report is made yet. -/
def backService (methods : List Nat) (abandonedOp : Bool) (nm : Nat) :
    BackStep :=
  match service methods abandonedOp nm with
  | .ok _ => ⟨none, true⟩
  | .error .noSuchMethod => ⟨some .invocationError, false⟩
  | .error .abandoned => ⟨some .abandonedOperation, false⟩

/-- C6: when the named method does not exist and the operation has not been
abandoned, service signals noSuchMethod, the Back terminates the operation
with the distinguished invocation-error report, no servicer callback fires,
and that report is distinct from every Outcome value, SERVICER_FAILURE
included; when the operation has already been abandoned, service signals
abandoned instead. -/
theorem no_such_method_distinguished (methods : List Nat) (nm : Nat)
    (h : nm ∉ methods) :
    service methods false nm = .error .noSuchMethod ∧
    (backService methods false nm).report = some .invocationError ∧
    (backService methods false nm).servicerCallbackFired = false ∧
    (∀ o : Outcome, TerminationReport.invocationError ≠ .outcome o) ∧
    (∀ (methods2 : List Nat) (nm2 : Nat),
      service methods2 true nm2 = .error .abandoned) := by
  have hs : service methods false nm = .error .noSuchMethod := by
    unfold service
    simp [h]
  refine ⟨hs, ?_, ?_, ?_, ?_⟩
  · simp [backService, hs]
  · simp [backService, hs]
  · intro o hc
    exact TerminationReport.noConfusion hc
  · intro methods2 nm2
    simp [service]

/-- Witness for C6 at a concrete method table lacking the requested name. -/
theorem no_such_method_distinguished_witness :
    service [4] false 9 = .error .noSuchMethod ∧
    (backService [4] false 9).report = some .invocationError :=
  ⟨(no_such_method_distinguished [4] 9 (by decide)).1,
   (no_such_method_distinguished [4] 9 (by decide)).2.1⟩

/-- Operation timing state as far as time_remaining is concerned: the current
deadline and liveness. -/
structure OperationTimingState where
  deadline : Int
  active : Bool
  deriving DecidableEq, Repr

/-- Modelled from the spec: the OperationContext implementations are not under
src/.  time_remaining returns the nonnegative length of allowed time left,
computed as the deadline minus the current time and 0 once the deadline has
passed, together with the operation state, unchanged. -/
def time_remaining (s : OperationTimingState) (now : Int) :
    Int × OperationTimingState :=
  (max 0 (s.deadline - now), s)

/-- C7: time_remaining is nonnegative for every state and call time, equals
deadline minus now while the deadline has not passed, equals 0 once it has,
and leaves the operation state unchanged. -/
theorem time_remaining_nonneg_pure (s : OperationTimingState) (now : Int) :
    0 ≤ (time_remaining s now).1 ∧
    (now ≤ s.deadline → (time_remaining s now).1 = s.deadline - now) ∧
    (s.deadline ≤ now → (time_remaining s now).1 = 0) ∧
    (time_remaining s now).2 = s := by
  refine ⟨le_max_left 0 _, ?_, ?_, rfl⟩
  · intro h
    exact max_eq_right (by omega)
  · intro h
    exact max_eq_left (by omega)

/-- Witness for C7 before and after a concrete deadline. -/
theorem time_remaining_nonneg_pure_witness :
    (time_remaining ⟨10, true⟩ 3).1 = 10 - 3 ∧
    (time_remaining ⟨10, true⟩ 12).1 = 0 :=
  ⟨(time_remaining_nonneg_pure ⟨10, true⟩ 3).2.1 (by decide),
   (time_remaining_nonneg_pure ⟨10, true⟩ 12).2.2.1 (by decide)⟩

/-- Direction-tagged ticket traffic of one operation. -/
inductive OpEvent
  | f2b (t : FrontToBackTicket)
  | b2f (t : BackToFrontTicket)
  deriving DecidableEq, Repr

/-- The timeout carried by a directed event: only the front-to-back ticket
type has a timeout field; a back-to-front ticket has none to read. -/
def OpEvent.timeoutOf : OpEvent → Option Nat
  | .f2b t => t.timeout
  | .b2f _ => none

/-- The timeout request in force after a stream of directed events. -/
def lastTimeoutOfTraffic (evs : List OpEvent) : Option Nat :=
  (evs.filterMap OpEvent.timeoutOf).getLast?

/-- C9: a BackToFrontTicket consists of exactly operation_id, sequence_number,
kind and payload, so it carries no name, subscription, trace_id or timeout
field; consequently a back-to-front event never carries a timeout, and
appending any back-to-front ticket to an operation traffic stream leaves the
timeout request in force, hence the deadline, unchanged. -/
theorem b2f_no_deadline_update :
    (∀ t : BackToFrontTicket,
      t = ⟨t.operation_id, t.sequence_number, t.kind, t.payload⟩) ∧
    (∀ t : BackToFrontTicket, OpEvent.timeoutOf (.b2f t) = none) ∧
    (∀ (evs : List OpEvent) (t : BackToFrontTicket),
      lastTimeoutOfTraffic (evs ++ [.b2f t]) = lastTimeoutOfTraffic evs) := by
  refine ⟨fun t => rfl, fun t => rfl, ?_⟩
  intro evs t
  unfold lastTimeoutOfTraffic
  rw [List.filterMap_append]
  simp [OpEvent.timeoutOf]

end GrpcBase
